import Mathlib

/-!
Verification of the student-portal Lightning Web Components.

This development shallowly embeds the incident-recording wizard
(`incidentRecordingForm.js`) and the shopping cart component and proves
properties of step navigation, per-step and whole-record validation,
participant/file collection updates, draft persistence, submission and the
cart total computation.
-/

namespace IncidentForm

/-- JavaScript truthiness of a string: a string is truthy iff it is nonempty. -/
def truthy (s : String) : Bool := s != ""

/-- JavaScript `String.prototype.trim`: strip leading and trailing
whitespace. -/
def jsTrim (s : String) : String :=
  ⟨((s.data.dropWhile Char.isWhitespace).reverse.dropWhile
      Char.isWhitespace).reverse⟩

/-- A participant entry in `formData.otherStudents`
(`{ id, name, role }` as built by `handleAddStudent`). -/
structure Participant where
  id : String
  name : String
  role : String
deriving DecidableEq

/-- A staff entry in `formData.staffMembers`
(`{ id, name, title }` as built by `handleAddStaff`). -/
structure StaffMember where
  id : String
  name : String
  title : String
deriving DecidableEq

/-- An uploaded file reference (`{ documentId, name }` as kept in
`this.uploadedFiles`). -/
structure UploadedFile where
  documentId : String
  name : String
deriving DecidableEq

/-- The `formData` aggregate of `IncidentRecordingForm`, with the default
values from the class field initializer. -/
structure FormData where
  studentId : String := ""
  incidentDateTime : String := ""
  location : String := ""
  incidentType : String := ""
  severityLevel : String := ""
  incidentDescription : String := ""
  antecedents : String := ""
  observedBehaviours : String := ""
  environmentalFactors : List String := []
  environmentalContext : String := ""
  otherStudents : List Participant := []
  staffMembers : List StaffMember := []
  witnesses : String := ""
  parentsNotified : Bool := false
  notificationDateTime : String := ""
  notificationMethod : String := ""
  notificationNotes : String := ""
  immediateResponse : String := ""
  interventions : List String := []
  consequences : List String := []
  interventionDetails : String := ""
  safetyMeasures : List String := []
  safetyNotes : String := ""
  followupActions : List String := []
  followupDetails : String := ""
  followupDueDate : String := ""
  assignedTo : String := ""
  escalationLevel : String := ""
  escalationJustification : String := ""
  approverId : String := ""
  submissionNotes : String := ""
deriving DecidableEq

/-- The all-defaults record (every string field empty, lists empty). -/
def emptyForm : FormData := {}

/-- The six wizard steps (`currentStep` values). -/
inductive Step where
  | step1 | step2 | step3 | step4 | step5 | step6
deriving DecidableEq

/-- The `steps` array used by `handlePrevious` and `handleNext`. -/
def steps : List Step := [.step1, .step2, .step3, .step4, .step5, .step6]

/-- `get requiresEscalation`: the escalation level is truthy and not none. -/
def requiresEscalation (fd : FormData) : Bool :=
  truthy fd.escalationLevel && fd.escalationLevel != "none"

/-- `get requiresApproval`: severity High or Critical, or escalation required. -/
def requiresApproval (fd : FormData) : Bool :=
  fd.severityLevel == "High" || fd.severityLevel == "Critical" ||
    requiresEscalation fd

/-- `isCurrentStepValid()` as a function of the current step and the record. -/
def isCurrentStepValid (step : Step) (fd : FormData) : Bool :=
  match step with
  | .step1 =>
      truthy fd.studentId && truthy fd.incidentDateTime &&
        truthy fd.location && truthy fd.incidentType &&
        truthy fd.severityLevel
  | .step2 =>
      truthy fd.incidentDescription &&
        decide ((jsTrim fd.incidentDescription).length > 10)
  | .step3 => true
  | .step4 =>
      truthy fd.immediateResponse &&
        decide ((jsTrim fd.immediateResponse).length > 5)
  | .step5 => true
  | .step6 => !requiresApproval fd || truthy fd.approverId

/-- `handlePrevious()`: retreat one position in `steps` when the current index
is positive. -/
def handlePrevious (step : Step) : Step :=
  let currentIndex := steps.indexOf step
  if 0 < currentIndex then steps.getD (currentIndex - 1) step else step

/-- `handleNext()`: advance one position in `steps` when the current step is
valid and not the last. -/
def handleNext (fd : FormData) (step : Step) : Step :=
  if isCurrentStepValid step fd then
    let currentIndex := steps.indexOf step
    if currentIndex < steps.length - 1 then steps.getD (currentIndex + 1) step
    else step
  else step

/-- The values of the seven entries of `requiredFields` in `isFormValid`. -/
def requiredFieldValues (fd : FormData) : List String :=
  [fd.studentId, fd.incidentDateTime, fd.location, fd.incidentType,
   fd.severityLevel, fd.incidentDescription, fd.immediateResponse]

/-- `isFormValid()`: the seven required fields trim to nonempty strings, an
approver is present when approval is required, and a justification is present
when escalation is required. -/
def isFormValid (fd : FormData) : Bool :=
  ((requiredFieldValues fd).all fun v => decide ((jsTrim v).length > 0)) &&
    (!requiresApproval fd || truthy fd.approverId) &&
    (!requiresEscalation fd || truthy fd.escalationJustification)

end IncidentForm

namespace IncidentForm

/-- The successor step S(n+1) of the linear order on steps (last step fixed). -/
def stepSucc : Step → Step
  | .step1 => .step2
  | .step2 => .step3
  | .step3 => .step4
  | .step4 => .step5
  | .step5 => .step6
  | .step6 => .step6

/-- The predecessor step S(n-1) of the linear order on steps (first step
fixed). -/
def stepPred : Step → Step
  | .step1 => .step1
  | .step2 => .step1
  | .step3 => .step2
  | .step4 => .step3
  | .step5 => .step4
  | .step6 => .step5

/-- A record with the five step-1 fields filled, as in the end-to-end
scenario. -/
def step1Filled : FormData :=
  { emptyForm with
      studentId := "S001", incidentDateTime := "2024-03-05T09:30",
      location := "classroom", incidentType := "disruption",
      severityLevel := "Low" }

/-- The scenario record with a 5-character description. -/
def shortDescForm : FormData :=
  { step1Filled with incidentDescription := "Noise" }

/-- The scenario record with a description longer than 10 characters. -/
def longDescForm : FormData :=
  { step1Filled with incidentDescription := "Shouting during mathematics" }

/-- Claim C1: for every record and step, handleNext leaves the step unchanged
when the current step is invalid and advances exactly one step when it is
valid (from any step that has a successor); handlePrevious retreats exactly
one step with no validation from every step except the first, where it is the
identity. -/
theorem c1_step_navigation (fd : FormData) (s : Step) :
    (isCurrentStepValid s fd = false → handleNext fd s = s) ∧
    (isCurrentStepValid s fd = true → s ≠ .step6 → handleNext fd s = stepSucc s) ∧
    handlePrevious .step1 = .step1 ∧
    (s ≠ .step1 → handlePrevious s = stepPred s) := by
  refine ⟨?_, ?_, by decide, ?_⟩
  · intro h
    cases s <;> (simp only [handleNext, h]; decide)
  · intro h hne
    cases s
    case step6 => exact absurd rfl hne
    all_goals (simp only [handleNext, h]; decide)
  · intro h
    cases s
    case step1 => exact absurd rfl h
    all_goals decide

/-- Witness for C1 at concrete inputs: an empty record blocks handleNext on
step 1, step 3 always advances, and handlePrevious retreats from step 3. -/
theorem c1_step_navigation_witness :
    handleNext emptyForm .step1 = .step1 ∧
    handleNext emptyForm .step3 = stepSucc .step3 ∧
    handlePrevious .step3 = stepPred .step3 :=
  ⟨(c1_step_navigation emptyForm .step1).1 (by decide),
   (c1_step_navigation emptyForm .step3).2.1 (by decide) (by decide),
   (c1_step_navigation emptyForm .step3).2.2.2 (by decide)⟩

/-- Claim C3: the per-step predicate holds as stated for steps 1, 2, 3 and 5,
and the end-to-end scenario behaves as described. -/
theorem c3_step_predicates_and_scenario :
    (∀ fd : FormData, isCurrentStepValid .step1 fd = true ↔
      fd.studentId ≠ "" ∧ fd.incidentDateTime ≠ "" ∧ fd.location ≠ "" ∧
        fd.incidentType ≠ "" ∧ fd.severityLevel ≠ "") ∧
    (∀ fd : FormData, isCurrentStepValid .step2 fd = true ↔
      (jsTrim fd.incidentDescription).length > 10) ∧
    (∀ fd : FormData, isCurrentStepValid .step3 fd = true) ∧
    (∀ fd : FormData, isCurrentStepValid .step5 fd = true) ∧
    handleNext emptyForm .step1 = .step1 ∧
    handleNext step1Filled .step1 = .step2 ∧
    handleNext shortDescForm .step2 = .step2 ∧
    handleNext longDescForm .step2 = .step3 := by
  refine ⟨?_, ?_, fun fd => rfl, fun fd => rfl, by decide, by decide, by decide, by decide⟩
  · intro fd
    simp [isCurrentStepValid, truthy, Bool.and_eq_true, bne_iff_ne, and_assoc]
  · intro fd
    simp only [isCurrentStepValid, truthy, Bool.and_eq_true, bne_iff_ne,
      decide_eq_true_iff]
    constructor
    · exact fun h => h.2
    · intro h
      refine ⟨fun heq => ?_, h⟩
      rw [heq] at h
      exact absurd h (by decide)

end IncidentForm

namespace IncidentForm

theorem string_length_pos (s : String) : 0 < s.length ↔ s ≠ "" := by
  rw [Nat.pos_iff_ne_zero]
  constructor
  · intro h hs
    exact h (by simp [hs])
  · intro h hl
    apply h
    cases s with
    | mk data =>
        simp [String.length] at hl
        simp [hl]

theorem requiresEscalation_iff (fd : FormData) :
    requiresEscalation fd = true ↔
      fd.escalationLevel ≠ "" ∧ fd.escalationLevel ≠ "none" := by
  simp [requiresEscalation, truthy, Bool.and_eq_true, bne_iff_ne]

theorem requiresApproval_iff (fd : FormData) :
    requiresApproval fd = true ↔
      fd.severityLevel = "High" ∨ fd.severityLevel = "Critical" ∨
        (fd.escalationLevel ≠ "" ∧ fd.escalationLevel ≠ "none") := by
  simp [requiresApproval, Bool.or_eq_true, beq_iff_eq, requiresEscalation_iff,
    or_assoc]

/-- The whole-record validity condition as worded by the specification. -/
def isFormValidSpec (fd : FormData) : Prop :=
  (∀ v ∈ requiredFieldValues fd, jsTrim v ≠ "") ∧
  ((fd.severityLevel = "High" ∨ fd.severityLevel = "Critical" ∨
      (fd.escalationLevel ≠ "" ∧ fd.escalationLevel ≠ "none")) →
    fd.approverId ≠ "") ∧
  ((fd.escalationLevel ≠ "" ∧ fd.escalationLevel ≠ "none") →
    fd.escalationJustification ≠ "")

/-- A record with severity High, all base fields valid and no approver. -/
def highNoApprover : FormData :=
  { step1Filled with
      severityLevel := "High",
      incidentDescription := "Student shouted repeatedly in class",
      immediateResponse := "Removed from the classroom" }

/-- The same record with an approver selected. -/
def highWithApprover : FormData :=
  { highNoApprover with approverId := "A100" }

/-- Claim C2: isFormValid holds iff the seven base required fields are
nonempty after trimming, an approver is present whenever severity is High or
Critical or a non-none escalation level is set, and an escalation
justification is present whenever a non-none escalation level is set; a High
severity record with no approver fails and the same record with an approver
passes. -/
theorem c2_isFormValid_characterization :
    (∀ fd : FormData, isFormValid fd = true ↔ isFormValidSpec fd) ∧
    isFormValid highNoApprover = false ∧
    isFormValid highWithApprover = true := by
  refine ⟨?_, by decide, by decide⟩
  intro fd
  simp only [isFormValid, Bool.and_eq_true, List.all_eq_true,
    decide_eq_true_iff, Bool.or_eq_true, Bool.not_eq_true', truthy,
    bne_iff_ne, gt_iff_lt, string_length_pos, isFormValidSpec]
  constructor
  · rintro ⟨⟨h1, h2⟩, h3⟩
    refine ⟨h1, fun hA => ?_, fun hE => ?_⟩
    · rcases h2 with h2 | h2
      · exact absurd ((requiresApproval_iff fd).mpr hA) (by simp [h2])
      · exact h2
    · rcases h3 with h3 | h3
      · exact absurd ((requiresEscalation_iff fd).mpr hE) (by simp [h3])
      · exact h3
  · rintro ⟨h1, h2, h3⟩
    refine ⟨⟨h1, ?_⟩, ?_⟩
    · rcases Bool.eq_false_or_eq_true (requiresApproval fd) with hrb | hrb
      · exact Or.inr (h2 ((requiresApproval_iff fd).mp hrb))
      · exact Or.inl hrb
    · rcases Bool.eq_false_or_eq_true (requiresEscalation fd) with hre | hre
      · exact Or.inr (h3 ((requiresEscalation_iff fd).mp hre))
      · exact Or.inl hre

/-- Witness for C2: the characterization applied to the concrete High-severity
record with an approver. -/
theorem c2_isFormValid_witness : isFormValidSpec highWithApprover :=
  (c2_isFormValid_characterization.1 highWithApprover).mp (by decide)

end IncidentForm

namespace IncidentForm

/-- The participant object built by `handleAddStudent`. -/
def newStudent (studentId : String) : Participant :=
  { id := studentId, name := "Student " ++ studentId, role := "Participant" }

/-- The staff object built by `handleAddStaff`. -/
def newStaff (staffId : String) : StaffMember :=
  { id := staffId, name := "Staff " ++ staffId, title := "Teacher" }

/-- `handleAddStudent`: append a participant when the identifier is truthy and
no entry with that identifier is present. -/
def handleAddStudent (studentId : String) (fd : FormData) : FormData :=
  if truthy studentId &&
      (fd.otherStudents.find? fun s => s.id == studentId).isNone then
    { fd with otherStudents := fd.otherStudents ++ [newStudent studentId] }
  else fd

/-- `handleRemoveStudent`: keep the participants whose identifier differs. -/
def handleRemoveStudent (studentId : String) (fd : FormData) : FormData :=
  { fd with otherStudents := fd.otherStudents.filter fun s => s.id != studentId }

/-- `handleAddStaff`: append a staff member when the identifier is truthy and
no entry with that identifier is present. -/
def handleAddStaff (staffId : String) (fd : FormData) : FormData :=
  if truthy staffId &&
      (fd.staffMembers.find? fun s => s.id == staffId).isNone then
    { fd with staffMembers := fd.staffMembers ++ [newStaff staffId] }
  else fd

/-- `handleRemoveStaff`: keep the staff members whose identifier differs. -/
def handleRemoveStaff (staffId : String) (fd : FormData) : FormData :=
  { fd with staffMembers := fd.staffMembers.filter fun s => s.id != staffId }

/-- `handleUploadFinished`: unconditionally append the finished uploads
(`documentId` and `name` of each) to the uploaded-file list. -/
def handleUploadFinished (files uploadedFiles : List UploadedFile) :
    List UploadedFile :=
  uploadedFiles ++ files.map fun f => { documentId := f.documentId, name := f.name }

/-- `handleRemoveFile`: keep the files whose document identifier differs. -/
def handleRemoveFile (fileId : String) (uploadedFiles : List UploadedFile) :
    List UploadedFile :=
  uploadedFiles.filter fun f => f.documentId != fileId

/-- Counterexample to claim C4: finishing an upload whose documentId is
already present is not a no-op; the collection ends with two entries for that
identifier. -/
theorem c4_counterexample :
    handleUploadFinished [{ documentId := "doc1", name := "report.pdf" }]
        [{ documentId := "doc1", name := "report.pdf" }] =
      [{ documentId := "doc1", name := "report.pdf" },
       { documentId := "doc1", name := "report.pdf" }] ∧
    ((handleUploadFinished [{ documentId := "doc1", name := "report.pdf" }]
        [{ documentId := "doc1", name := "report.pdf" }]).filter
          fun f => f.documentId == "doc1").length = 2 := by
  constructor <;> rfl

theorem find?_none_append {α : Type} (p : α → Bool) (l1 l2 : List α)
    (h : l1.find? p = none) : (l1 ++ l2).find? p = l2.find? p := by
  rw [List.find?_append, h, Option.none_or]

/-- Claim C4 as amended: participant adds (students and staff) are idempotent
by identifier and yield exactly one entry for a freshly added identifier;
removes filter by identifier and are no-ops for absent identifiers; uploaded
files, however, are appended unconditionally, so duplicates are possible. -/
theorem c4_amended (fd : FormData) (pid fid : String)
    (files ufs : List UploadedFile) :
    handleAddStudent pid (handleAddStudent pid fd) = handleAddStudent pid fd ∧
    handleAddStaff pid (handleAddStaff pid fd) = handleAddStaff pid fd ∧
    ((fd.otherStudents.find? fun s => s.id == pid).isNone = true →
      truthy pid = true →
      ((handleAddStudent pid fd).otherStudents.filter
          fun s => s.id == pid).length = 1) ∧
    ((fd.otherStudents.find? fun s => s.id == pid).isNone = true →
      handleRemoveStudent pid fd = fd) ∧
    ((fd.staffMembers.find? fun s => s.id == pid).isNone = true →
      handleRemoveStaff pid fd = fd) ∧
    ((ufs.find? fun f => f.documentId == fid).isNone = true →
      handleRemoveFile fid ufs = ufs) ∧
    handleUploadFinished files ufs = ufs ++ files := by
  have heta : ∀ f : UploadedFile,
      ({ documentId := f.documentId, name := f.name } : UploadedFile) = f :=
    fun f => rfl
  refine ⟨?_, ?_, ?_, ?_, ?_, ?_, by simp [handleUploadFinished, heta]⟩
  · by_cases hc : (truthy pid &&
        (fd.otherStudents.find? fun s => s.id == pid).isNone) = true
    · have h1 : handleAddStudent pid fd =
          { fd with otherStudents := fd.otherStudents ++ [newStudent pid] } := by
        rw [handleAddStudent, if_pos hc]
      rw [h1, handleAddStudent, if_neg ?_]
      rcases Bool.and_eq_true _ _ |>.mp hc with ⟨-, hfind⟩
      have hnone : (fd.otherStudents.find? fun s => s.id == pid) = none :=
        Option.isNone_iff_eq_none.mp hfind
      simp [find?_none_append _ _ _ hnone, List.find?, newStudent]
    · have h1 : handleAddStudent pid fd = fd := by
        rw [handleAddStudent, if_neg hc]
      rw [h1]
      exact h1
  · by_cases hc : (truthy pid &&
        (fd.staffMembers.find? fun s => s.id == pid).isNone) = true
    · have h1 : handleAddStaff pid fd =
          { fd with staffMembers := fd.staffMembers ++ [newStaff pid] } := by
        rw [handleAddStaff, if_pos hc]
      rw [h1, handleAddStaff, if_neg ?_]
      rcases Bool.and_eq_true _ _ |>.mp hc with ⟨-, hfind⟩
      have hnone : (fd.staffMembers.find? fun s => s.id == pid) = none :=
        Option.isNone_iff_eq_none.mp hfind
      simp [find?_none_append _ _ _ hnone, List.find?, newStaff]
    · have h1 : handleAddStaff pid fd = fd := by
        rw [handleAddStaff, if_neg hc]
      rw [h1]
      exact h1
  · intro hfind htruthy
    have hnone : (fd.otherStudents.find? fun s => s.id == pid) = none :=
      Option.isNone_iff_eq_none.mp hfind
    have hnil : (fd.otherStudents.filter fun s => s.id == pid) = [] :=
      List.filter_eq_nil_iff.mpr (List.find?_eq_none.mp hnone)
    rw [handleAddStudent, if_pos (by rw [htruthy, hfind]; rfl)]
    simp [List.filter_append, hnil, List.filter, newStudent]
  · intro hfind
    have hall := List.find?_eq_none.mp (Option.isNone_iff_eq_none.mp hfind)
    rw [handleRemoveStudent]
    have : (fd.otherStudents.filter fun s => s.id != pid) = fd.otherStudents :=
      List.filter_eq_self.mpr fun a ha => by
        simpa using hall a ha
    rw [this]
  · intro hfind
    have hall := List.find?_eq_none.mp (Option.isNone_iff_eq_none.mp hfind)
    rw [handleRemoveStaff]
    have : (fd.staffMembers.filter fun s => s.id != pid) = fd.staffMembers :=
      List.filter_eq_self.mpr fun a ha => by
        simpa using hall a ha
    rw [this]
  · intro hfind
    have hall := List.find?_eq_none.mp (Option.isNone_iff_eq_none.mp hfind)
    rw [handleRemoveFile]
    exact List.filter_eq_self.mpr fun a ha => by simpa using hall a ha

/-- Witness for C4 amended at concrete inputs. -/
theorem c4_amended_witness :
    ((handleAddStudent "S9" emptyForm).otherStudents.filter
        fun s => s.id == "S9").length = 1 ∧
    handleRemoveStudent "S9" emptyForm = emptyForm :=
  ⟨(c4_amended emptyForm "S9" "d" [] []).2.2.1 (by decide) (by decide),
   (c4_amended emptyForm "S9" "d" [] []).2.2.2.1 (by decide)⟩

end IncidentForm

namespace IncidentForm

/-- A validation error entry `{ id, message }`. -/
structure VError where
  id : String
  message : String
deriving DecidableEq

/-- `validateFinalSubmission()`: recompute the error list for the final step
from the whole record. -/
def validateFinalSubmission (fd : FormData) : List VError :=
  (if !truthy fd.studentId then
    [{ id := "student", message := "Student selection is required" }]
   else []) ++
  (if !truthy fd.incidentDescription ||
      decide ((jsTrim fd.incidentDescription).length < 10) then
    [{ id := "description",
       message := "Detailed incident description is required (minimum 10 characters)" }]
   else []) ++
  (if !truthy fd.immediateResponse ||
      decide ((jsTrim fd.immediateResponse).length < 5) then
    [{ id := "response", message := "Immediate response details are required" }]
   else []) ++
  (if requiresApproval fd && !truthy fd.approverId then
    [{ id := "approval",
       message := "Approver selection is required for this severity level" }]
   else []) ++
  (if requiresEscalation fd && !truthy fd.escalationJustification then
    [{ id := "escalation", message := "Escalation justification is required" }]
   else [])

/-- `clearFieldValidationError(fieldName)`: keep the errors whose id differs
from the edited field name. -/
def clearFieldValidationError (fieldName : String)
    (validationErrors : List VError) : List VError :=
  validationErrors.filter fun error => error.id != fieldName

/-- `handleFieldChange` for the `studentId` field: spread a new record with
the entry replaced, then clear the validation error keyed by the field
name. -/
def handleFieldChangeStudentId (value : String) (fd : FormData)
    (validationErrors : List VError) : FormData × List VError :=
  ({ fd with studentId := value },
   clearFieldValidationError "studentId" validationErrors)

/-- A record that is complete except for the student selection. -/
def missingStudentForm : FormData :=
  { step1Filled with
      studentId := "",
      incidentDescription := "Student shouted repeatedly in class",
      immediateResponse := "Removed from the classroom" }

/-- Claim C5 evaluated on the code: entering the final step flags the missing
student under the id `student`, and editing the `studentId` field replaces the
record entry but leaves that error in place, because the filter removes only
errors whose id equals the field name `studentId`. -/
theorem c5_field_edit_keeps_field_error :
    validateFinalSubmission missingStudentForm =
      [{ id := "student", message := "Student selection is required" }] ∧
    (handleFieldChangeStudentId "S001" missingStudentForm
        (validateFinalSubmission missingStudentForm)).1.studentId = "S001" ∧
    (handleFieldChangeStudentId "S001" missingStudentForm
        (validateFinalSubmission missingStudentForm)).2 =
      [{ id := "student", message := "Student selection is required" }] :=
  ⟨rfl, rfl, rfl⟩

/-- The draft snapshot persisted under the `incident_draft` key. -/
structure Draft where
  formData : FormData
  uploadedFiles : List UploadedFile
  timestamp : String
deriving DecidableEq

/-- `saveDraft()`: overwrite the stored snapshot with the full record, the
uploaded files and a timestamp. -/
def saveDraft (fd : FormData) (uploadedFiles : List UploadedFile)
    (timestamp : String) (_store : Option Draft) : Option Draft :=
  some { formData := fd, uploadedFiles := uploadedFiles, timestamp := timestamp }

/-- `loadDraft()`: when a snapshot is stored, spread its `formData` over the
current record (the snapshot holds every key, so its values win) and take its
uploaded files; otherwise leave the state unchanged. -/
def loadDraft (store : Option Draft) (fd : FormData)
    (uploadedFiles : List UploadedFile) : FormData × List UploadedFile :=
  match store with
  | none => (fd, uploadedFiles)
  | some d => (d.formData, d.uploadedFiles)

/-- `submitIncident()`: the successful submission removes the stored
snapshot. -/
def submitIncident (_store : Option Draft) : Option Draft := none

/-- The record a fresh instance holds right before `loadDraft`: the defaults
with the current date-time and, when supplied and truthy, the pre-seeded
student. -/
def blankForm (now apiStudentId : String) : FormData :=
  if truthy apiStudentId then
    { emptyForm with incidentDateTime := now, studentId := apiStudentId }
  else { emptyForm with incidentDateTime := now }

/-- `initializeForm()` on a fresh instance: set the incident date-time,
pre-seed the student when supplied, then load any stored snapshot. -/
def initializeForm (now apiStudentId : String) (store : Option Draft) :
    FormData × List UploadedFile :=
  loadDraft store (blankForm now apiStudentId) []

/-- Claim C6: a snapshot saved by saveDraft and reloaded into a fresh instance
reproduces the form fields and the uploaded-file references; a successful
submission empties the store, so a fresh instance after it starts from the
defaults only. -/
theorem c6_draft_round_trip (fd : FormData) (ufs : List UploadedFile)
    (ts now now2 sid : String) (store store2 : Option Draft) :
    initializeForm now sid (saveDraft fd ufs ts store) = (fd, ufs) ∧
    submitIncident store2 = none ∧
    initializeForm now2 sid (submitIncident store2) = (blankForm now2 sid, []) :=
  ⟨rfl, rfl, rfl⟩

/-- A JavaScript error value as consumed by `reduceError`: an array of objects
carrying messages, or a single error whose message may be empty. -/
inductive JsError where
  | single (message : String)
  | array (messages : List String)
deriving DecidableEq

/-- `reduceError()`: join an array of messages with a comma; otherwise take
the message, falling back to a generic string when it is falsy. -/
def reduceError : JsError → String
  | .array ms => String.intercalate ", " ms
  | .single m => if truthy m then m else "An unexpected error occurred"

/-- The submission-relevant component state. -/
structure SubmitState where
  formData : FormData
  uploadedFiles : List UploadedFile
  store : Option Draft
  errorMessage : String
  submittedIds : List String
deriving DecidableEq

/-- `handleSubmit()`: throw when the whole-record validator fails, otherwise
run the simulated network call (`network = some e` models the call throwing
`e`), and only on success clear the snapshot and dispatch the
`incidentsubmitted` notification; every thrown error is caught and reduced
into `errorMessage`. -/
def handleSubmit (network : Option JsError) (incidentId : String)
    (s : SubmitState) : SubmitState :=
  if !isFormValid s.formData then
    { s with errorMessage :=
        reduceError (.single "Please complete all required fields") }
  else
    match network with
    | some e => { s with errorMessage := reduceError e }
    | none =>
        { s with
            store := none
            submittedIds := s.submittedIds ++ [incidentId] }

/-- Claim C7: whenever handleSubmit fails, through validation or a throwing
network call, the only state change is the single reduced error string; the
form record, uploaded files, draft snapshot and dispatched notifications are
exactly as before. -/
theorem c7_submit_failure_atomicity (s : SubmitState)
    (network : Option JsError) (incidentId : String) :
    (isFormValid s.formData = false →
      handleSubmit network incidentId s =
        { s with errorMessage :=
            reduceError (.single "Please complete all required fields") }) ∧
    (∀ e, isFormValid s.formData = true → network = some e →
      handleSubmit network incidentId s =
        { s with errorMessage := reduceError e }) := by
  constructor
  · intro h
    simp [handleSubmit, h]
  · intro e h hn
    simp [handleSubmit, h, hn]

/-- Witness for C7: an invalid record fails submission and leaves the stored
draft and the record untouched. -/
theorem c7_submit_failure_witness :
    handleSubmit none "INC-1"
        { formData := emptyForm, uploadedFiles := [],
          store := some { formData := step1Filled, uploadedFiles := [],
                          timestamp := "t0" },
          errorMessage := "", submittedIds := [] } =
      { formData := emptyForm, uploadedFiles := [],
        store := some { formData := step1Filled, uploadedFiles := [],
                        timestamp := "t0" },
        errorMessage := "Please complete all required fields",
        submittedIds := [] } :=
  (c7_submit_failure_atomicity _ none "INC-1").1 (by decide)

/-- The component's timer bookkeeping together with the environment's live
browser timers: `setTimeout`/`setInterval` register a handle and
`clearTimeout`/`clearInterval` retire it. -/
structure TimerState where
  autoSaveTimer : Option Nat
  autoSaveInterval : Option Nat
  liveTimeouts : List Nat
  liveIntervals : List Nat
deriving DecidableEq

/-- `setupAutoSave()`: `setInterval` registers the 30-second periodic handle
and stores it in `autoSaveInterval`. -/
def setupAutoSave (handle : Nat) (t : TimerState) : TimerState :=
  { t with autoSaveInterval := some handle,
           liveIntervals := t.liveIntervals ++ [handle] }

/-- `triggerAutoSave()`: clear the pending debounce timeout when present, then
register a new 2-second debounce handle. -/
def triggerAutoSave (handle : Nat) (t : TimerState) : TimerState :=
  let t1 :=
    match t.autoSaveTimer with
    | some h => { t with liveTimeouts := t.liveTimeouts.filter (· != h) }
    | none => t
  { t1 with autoSaveTimer := some handle,
            liveTimeouts := t1.liveTimeouts ++ [handle] }

/-- `disconnectedCallback()`: when a debounce handle is stored, clear that
timeout; nothing else is cleared. -/
def disconnectedCallback (t : TimerState) : TimerState :=
  match t.autoSaveTimer with
  | some h => { t with liveTimeouts := t.liveTimeouts.filter (· != h) }
  | none => t

/-- Claim C8 evaluated on the code: after mount (interval handle 1 registered
by setupAutoSave) and an edit (debounce handle 2), disconnectedCallback clears
the debounce timeout but the 30-second interval is still live, so periodic
auto-save keeps firing after disposal. -/
theorem c8_interval_survives_teardown :
    (disconnectedCallback (triggerAutoSave 2 (setupAutoSave 1
        { autoSaveTimer := none, autoSaveInterval := none,
          liveTimeouts := [], liveIntervals := [] }))).liveTimeouts = [] ∧
    (disconnectedCallback (triggerAutoSave 2 (setupAutoSave 1
        { autoSaveTimer := none, autoSaveInterval := none,
          liveTimeouts := [], liveIntervals := [] }))).liveIntervals = [1] :=
  ⟨rfl, rfl⟩

/-- Modelled from the spec: the wizard template (not part of the source tree)
renders the submit control only on the final step, so submit is invocable only
from S6; from any other step the action is unavailable and the state is
untouched. -/
def uiSubmit (network : Option JsError) (incidentId : String) (step : Step)
    (s : SubmitState) : SubmitState :=
  if step = .step6 then handleSubmit network incidentId s else s

/-- Claim C9: from any step other than S6 the submit action dispatches no
`incidentsubmitted` notification and leaves the draft snapshot in place, and
even from S6 a record failing the whole-record validator dispatches nothing
and keeps the snapshot. -/
theorem c9_submit_only_from_last_step (network : Option JsError)
    (incidentId : String) (step : Step) (s : SubmitState) :
    (step ≠ .step6 → uiSubmit network incidentId step s = s) ∧
    (isFormValid s.formData = false →
      (uiSubmit network incidentId step s).submittedIds = s.submittedIds ∧
      (uiSubmit network incidentId step s).store = s.store) := by
  constructor
  · intro h
    simp [uiSubmit, h]
  · intro h
    by_cases hs : step = Step.step6
    · simp [uiSubmit, hs, handleSubmit, h]
    · simp [uiSubmit, hs]

/-- Witness for C9: from step 3, with a fully valid record and a stored draft,
submit does nothing. -/
theorem c9_submit_witness :
    uiSubmit none "INC-2" .step3
        { formData := highWithApprover, uploadedFiles := [],
          store := some { formData := highWithApprover, uploadedFiles := [],
                          timestamp := "t1" },
          errorMessage := "", submittedIds := [] } =
      { formData := highWithApprover, uploadedFiles := [],
        store := some { formData := highWithApprover, uploadedFiles := [],
                        timestamp := "t1" },
        errorMessage := "", submittedIds := [] } :=
  (c9_submit_only_from_last_step none "INC-2" .step3 _).1 (by decide)

end IncidentForm

namespace Cart

/-- A thrown JavaScript TypeError. -/
structure TypeError where
  message : String
deriving DecidableEq

/-- The integer number of cents `toFixed(2)` rounds a number to. -/
def cents (q : ℚ) : ℤ := round (q * 100)

/-- `Number.prototype.toFixed(2)`: the decimal string with exactly two
fraction digits. -/
def toFixedTwoString (q : ℚ) : String :=
  let c := cents q
  (if c < 0 then "-" else "") ++ toString (c.natAbs / 100) ++ "." ++
    (if c.natAbs % 100 < 10 then "0" else "") ++ toString (c.natAbs % 100)

/-- JavaScript ToString for a number standing where a string is needed: an
integral value prints as a plain integer (the only numbers these getters ever
coerce are the reduce's initial 0 and the number 0 the discount getter can
return); a non-integral value, never coerced on the embedded paths, is
rendered to two decimals. -/
def jsNumToString (q : ℚ) : String :=
  if q.den = 1 then toString q.num else toFixedTwoString q

/-- A JavaScript value flowing through the cart getters: a number or a
string. -/
inductive JsVal where
  | num (q : ℚ)
  | str (s : String)
deriving DecidableEq

/-- JavaScript binary `+`: numeric addition on two numbers; when either
operand is a string, string concatenation after coercing the other operand. -/
def jsAdd : JsVal → JsVal → JsVal
  | .num a, .num b => .num (a + b)
  | .num a, .str b => .str (jsNumToString a ++ b)
  | .str a, .num b => .str (a ++ jsNumToString b)
  | .str a, .str b => .str (a ++ b)

/-- The digits of a numeric literal read off a character list. -/
def digitsToNat (l : List Char) : ℕ :=
  l.foldl (fun n c => 10 * n + (c.toNat - 48)) 0

/-- JavaScript `parseFloat` on the decimal strings these getters produce:
optional sign, integer digits, optional fraction digits, anything after the
parsed prefix ignored. -/
def parseFloat (s : String) : ℚ :=
  let l := s.data
  let sign : ℚ × List Char :=
    match l with
    | '-' :: rest => (-1, rest)
    | '+' :: rest => (1, rest)
    | _ => (1, l)
  let intPart := sign.2.takeWhile Char.isDigit
  let rest := sign.2.dropWhile Char.isDigit
  let frac :=
    match rest with
    | '.' :: r => r.takeWhile Char.isDigit
    | _ => []
  sign.1 * ((digitsToNat intPart : ℚ) +
    (digitsToNat frac : ℚ) / (10 : ℚ) ^ frac.length)

/-- `parseFloat` applied to a possibly non-string value coerces it to a
string first, as `total` does to the discount getter's result. -/
def parseFloatVal : JsVal → ℚ
  | .str s => parseFloat s
  | .num q => parseFloat (jsNumToString q)

/-- A cart line item; `totalPrice` holds whatever value was stored, a number
in the mock literals and a `toFixed(2)` string once processed (display-only
fields omitted). -/
structure CartItem where
  id : String
  productId : String
  name : String
  price : ℚ
  quantity : ℕ
  maxQuantity : ℕ
  available : Bool
  totalPrice : JsVal
deriving DecidableEq

/-- An applied coupon `{ code, type, value, minOrder }`. -/
structure Coupon where
  code : String
  type : String
  value : ℚ
  minOrder : ℚ
deriving DecidableEq

/-- The cart state the summary getters depend on. -/
structure CartState where
  cartItems : List CartItem
  appliedCoupon : Option Coupon
  showTax : Bool
  freeShippingThreshold : ℚ
deriving DecidableEq

/-- `get cartItemCount`: total quantity across the items. -/
def cartItemCount (s : CartState) : ℕ :=
  s.cartItems.foldl (fun total item => total + item.quantity) 0

/-- `get subtotal`: reduce the stored `totalPrice` values onto the number 0,
then call `toFixed(2)` on the result — a TypeError when the accumulated value
is a string, since strings have no `toFixed` method. -/
def subtotal (s : CartState) : Except TypeError String :=
  match s.cartItems.foldl (fun total item => jsAdd total item.totalPrice)
      (JsVal.num 0) with
  | .num q => .ok (toFixedTwoString q)
  | .str _ => .error { message := "total.toFixed is not a function" }

/-- `get shippingCost`: free at or above the threshold, otherwise 9.99. -/
def shippingCost (s : CartState) : Except TypeError ℚ := do
  let subtotalAmount := parseFloat (← subtotal s)
  pure (if subtotalAmount ≥ s.freeShippingThreshold then 0 else 999 / 100)

/-- `get tax`: 8 percent of the subtotal, rendered by `toFixed(2)`. -/
def tax (s : CartState) : Except TypeError String := do
  let subtotalAmount := parseFloat (← subtotal s)
  pure (toFixedTwoString (subtotalAmount * (8 / 100)))

/-- `get discount`: with a coupon, first read the subtotal, then a percentage
of it or the fixed value as a `toFixed(2)` string; the number 0 with no
coupon or an unknown type. -/
def discount (s : CartState) : Except TypeError JsVal :=
  match s.appliedCoupon with
  | some c => do
      let subtotalAmount := parseFloat (← subtotal s)
      if c.type = "percentage" then
        pure (.str (toFixedTwoString (subtotalAmount * c.value / 100)))
      else if c.type = "fixed" then
        pure (.str (toFixedTwoString c.value))
      else pure (.num 0)
  | none => pure (.num 0)

/-- `get total`: subtotal plus shipping plus optional tax minus discount,
clamped at zero and rendered by `toFixed(2)`; every getter it reads may
throw. -/
def total (s : CartState) : Except TypeError String := do
  let subtotalAmount := parseFloat (← subtotal s)
  let shippingAmount ← shippingCost s
  let taxAmount ←
    if s.showTax then do
      let t ← tax s
      pure (parseFloat t)
    else pure (0 : ℚ)
  let discountAmount := parseFloatVal (← discount s)
  let totalAmount := subtotalAmount + shippingAmount + taxAmount - discountAmount
  pure (toFixedTwoString (max 0 totalAmount))

/-- `get canCheckout`: the cart is nonempty and every item is available. -/
def canCheckout (s : CartState) : Bool :=
  !s.cartItems.isEmpty && s.cartItems.all (fun item => item.available)

/-- The object returned by `getCartSummary()`. -/
structure CartSummary where
  itemCount : ℕ
  subtotal : String
  shipping : ℚ
  tax : String
  discount : JsVal
  total : String
  appliedCoupon : Option Coupon
deriving DecidableEq

/-- `getCartSummary()`: building the summary object reads every getter, so
the first TypeError propagates out of the call. -/
def getCartSummary (s : CartState) : Except TypeError CartSummary := do
  let sub ← subtotal s
  let ship ← shippingCost s
  let tx ← tax s
  let disc ← discount s
  let tot ← total s
  pure { itemCount := cartItemCount s, subtotal := sub, shipping := ship,
         tax := tx, discount := disc, total := tot,
         appliedCoupon := s.appliedCoupon }

/-- The `cartupdate` event detail built by `dispatchCartUpdate()`. -/
structure CartUpdateDetail where
  itemCount : ℕ
  total : String
  items : List CartItem
deriving DecidableEq

/-- `dispatchCartUpdate()`: reads `total` while building the detail. -/
def dispatchCartUpdate (s : CartState) : Except TypeError CartUpdateDetail := do
  let tot ← total s
  pure { itemCount := cartItemCount s, total := tot, items := s.cartItems }

/-- The `proceedcheckout` event detail. -/
structure CheckoutDetail where
  cartItems : List CartItem
  total : String
  appliedCoupon : Option Coupon
deriving DecidableEq

/-- `proceedToCheckout()`: when checkout is possible, build the detail — which
reads `total` — and dispatch it. -/
def proceedToCheckout (s : CartState) :
    Except TypeError (Option CheckoutDetail) :=
  if canCheckout s then do
    let tot ← total s
    pure (some { cartItems := s.cartItems, total := tot,
                 appliedCoupon := s.appliedCoupon })
  else pure none

/-- `processCartItems`: recompute each item's `totalPrice` as the string
`(price * quantity).toFixed(2)` returns (display-only fields omitted). -/
def processCartItems (items : List CartItem) : List CartItem :=
  items.map fun item =>
    { item with
        totalPrice := .str (toFixedTwoString (item.price * item.quantity)) }

/-- The two `mockCartItems` literals, whose `totalPrice` fields are numbers. -/
def mockCartItems : List CartItem :=
  [{ id := "1", productId := "prod-1", name := "Wireless Bluetooth Headphones",
     price := 12999 / 100, quantity := 1, maxQuantity := 10, available := true,
     totalPrice := .num (12999 / 100) },
   { id := "2", productId := "prod-2", name := "Smart Fitness Watch",
     price := 24999 / 100, quantity := 2, maxQuantity := 5, available := true,
     totalPrice := .num (49998 / 100) }]

/-- `loadCartData()` with no saved cart: the mock items pass through
`processCartItems`, which replaces every `totalPrice` with a string. -/
def loadCartData : List CartItem := processCartItems mockCartItems

/-- The component state right after mount with the default api values
(`showTax` true, `freeShippingThreshold` 50) and no coupon. -/
def mountedState : CartState :=
  { cartItems := loadCartData, appliedCoupon := none, showTax := true,
    freeShippingThreshold := 50 }

/-- Claim C10 evaluated on the code at its own mock data: after
`processCartItems` every stored `totalPrice` is a `toFixed(2)` string
("129.99", "499.98"), the subtotal reduce concatenates them onto the coerced
initial 0, and `toFixed(2)` on the resulting string throws — so the total,
the cart summary, the `cartupdate` detail and the checkout detail all raise a
TypeError instead of reporting a clamped total on this (or any nonempty)
cart. -/
theorem c10_nonempty_cart_total_throws :
    (mountedState.cartItems.map fun item => item.totalPrice) =
      [.str "129.99", .str "499.98"] ∧
    subtotal mountedState =
      .error { message := "total.toFixed is not a function" } ∧
    total mountedState =
      .error { message := "total.toFixed is not a function" } ∧
    getCartSummary mountedState =
      .error { message := "total.toFixed is not a function" } ∧
    dispatchCartUpdate mountedState =
      .error { message := "total.toFixed is not a function" } ∧
    proceedToCheckout mountedState =
      .error { message := "total.toFixed is not a function" } := by
  have h1 : cents (12999 / 100 * ((1 : ℕ) : ℚ)) = 12999 := by
    norm_num [cents]
  have h2 : cents (24999 / 100 * ((2 : ℕ) : ℚ)) = 49998 := by
    norm_num [cents]
  refine ⟨?_, rfl, rfl, rfl, rfl, rfl⟩
  simp only [mountedState, loadCartData, processCartItems, mockCartItems,
    List.map_cons, List.map_nil, toFixedTwoString, h1, h2]
  decide

end Cart
